import Mathlib

/-
Verification of the logic-circuit evaluation engine of the
`webwriter-logic-circuit` widget (EricHier/logic-circuit).

The embedding models the gate classes (`Gate` base class and its
subclasses in `widgets/src/gates/`), the connector click logic
(`widgets/src/connector.ts`), and the simulation controller
(`widgets/webwriter-logic-circuit.ts`).  Gate signal fields are JS
values `boolean | null`, embedded as `Option Bool` with `none` playing
the role of JS `null` ("unset"); the JS operators `&&`, `||`, `!` are
embedded with their JS truthiness semantics.
-/

namespace LogicCircuit

/-- JS signal value `boolean | null`: `none` is JS `null` (unset). -/
abbrev JSVal := Option Bool

/-- JS truthiness of a `boolean | null` value: `null` is falsy. -/
def truthy : JSVal → Bool
  | none => false
  | some b => b

/-- JS `a && b` on `boolean | null`: returns `a` when `a` is falsy, else `b`. -/
def jsAnd (a b : JSVal) : JSVal := if truthy a then b else a

/-- JS `a || b` on `boolean | null`: returns `a` when `a` is truthy, else `b`. -/
def jsOr (a b : JSVal) : JSVal := if truthy a then a else b

/-- JS `!a` on `boolean | null`: always a real boolean. -/
def jsNot (a : JSVal) : JSVal := some (!truthy a)

/-- The gate kinds of the widget (`gatetype` strings in the source). -/
inductive GateType
  | INPUT | OUTPUT | NOT | AND | OR | NAND | NOR | XOR | XNOR | SPLITTER
deriving DecidableEq, Repr, Fintype

/-- The signal-carrying fields of a `Gate` element (base class `Gate` in
`src/unnamed/part_003` / `part_004`): `input1`, `input2`, `output`,
`output2`, each `boolean | null`, plus the `gatetype` tag.  The base
constructor initialises `input1 = input2 = null` and
`output = output2 = false`. -/
structure GateState where
  gatetype : GateType
  input1 : JSVal
  input2 : JSVal
  output : JSVal
  output2 : JSVal
deriving DecidableEq, Repr

/-- A gate as freshly constructed by the `Gate` base-class constructor
(`this.input1 = null; this.input2 = null; this.output = false;
this.output2 = false;`). -/
def freshGate (k : GateType) : GateState :=
  { gatetype := k, input1 := none, input2 := none
    output := some false, output2 := some false }

/-- `calculateOutput` of each gate subclass.

From the source:
`AND` (`src/unnamed/part_003`): `this.output = this.input1 && this.input2`;
`OR` (`widgets/src/gates/or-gate.ts`): `this.output = this.input1 || this.input2`;
`NOT` (`widgets/src/gates/not-gate.ts`): `this.output = !this.input1`;
`INPUT` (`widgets/src/gates/input.ts`): `this.output = this.input1`;
`OUTPUT` (`widgets/src/gates/output.ts`): `this.output = this.input1`;
`SPLITTER` (`src/unnamed/part_001`): `this.output = this.input1;
this.output2 = this.input1`.

Modelled from the spec: the `NAND`, `NOR`, `XOR` and `XNOR` gate class
files are not under `src/`; their `calculateOutput` bodies are modelled
from the spec's truth table (§4.1: NAND = ¬(in1 ∧ in2),
NOR = ¬(in1 ∨ in2), XOR = in1 ⊕ in2, XNOR = ¬(in1 ⊕ in2)) in the JS
idiom of the present classes (negation of the corresponding JS
expression on `input1`/`input2`). -/
def calculateOutput (g : GateState) : GateState :=
  match g.gatetype with
  | .AND => { g with output := jsAnd g.input1 g.input2 }
  | .OR => { g with output := jsOr g.input1 g.input2 }
  | .NOT => { g with output := jsNot g.input1 }
  | .INPUT => { g with output := g.input1 }
  | .OUTPUT => { g with output := g.input1 }
  | .SPLITTER => { g with output := g.input1, output2 := g.input1 }
  | .NAND => { g with output := jsNot (jsAnd g.input1 g.input2) }
  | .NOR => { g with output := jsNot (jsOr g.input1 g.input2) }
  | .XOR => { g with output := some (xor (truthy g.input1) (truthy g.input2)) }
  | .XNOR => { g with output := some (!(xor (truthy g.input1) (truthy g.input2))) }

/-- A gate with both inputs set to given values (other fields as freshly
constructed). -/
def gateWithInputs (k : GateType) (a b : JSVal) : GateState :=
  { freshGate k with input1 := a, input2 := b }

/-- Pure boolean truth table of §4.1 (inputs already projected to
`Bool`); used to state the evaluation claims. -/
def specTruthTable (k : GateType) (a b : Bool) : Bool :=
  match k with
  | .AND => a && b
  | .OR => a || b
  | .NOT => !a
  | .NAND => !(a && b)
  | .NOR => !(a || b)
  | .XOR => xor a b
  | .XNOR => !(xor a b)
  | .SPLITTER => a
  | .INPUT => a
  | .OUTPUT => a

/-- `changeInput1` of the `Gate` base class:
`this.input1 = !this.input1;`. -/
def changeInput1 (g : GateState) : GateState :=
  { g with input1 := jsNot g.input1 }

/-- `changeInput2` of the `Gate` base class:
`this.input2 = !this.input2;`. -/
def changeInput2 (g : GateState) : GateState :=
  { g with input2 := jsNot g.input2 }

/-- A freshly placed INPUT gate: the `Input` subclass constructor runs
the base constructor and then sets `this.output = false`; `input1`
remains `null`. -/
def freshInputGate : GateState := freshGate .INPUT

/-! ### Gate-limit option input (`LogicCircuit.handleInputChange`) -/

/-- JS whitespace as relevant to `parseInt` / `trim` for the widget's
numeric option inputs (space, tab, newline, carriage return). -/
def isWS (c : Char) : Bool := c = ' ' || c = '\t' || c = '\n' || c = '\r'

/-- Accumulate a decimal value over the leading digits of a string,
stopping at the first non-digit (the trailing behaviour of JS
`parseInt`). -/
def parseDigits : List Char → Nat → Nat
  | [], acc => acc
  | c :: cs, acc =>
    if c.isDigit then parseDigits cs (acc * 10 + (c.toNat - 48)) else acc

/-- Whether a string starts with a decimal digit. -/
def hasLeadingDigit : List Char → Bool
  | [] => false
  | c :: _ => c.isDigit

/-- JS `parseInt` after the leading whitespace has been skipped: an
optional sign followed by at least one digit, ignoring trailing
garbage; `none` is JS `NaN`. -/
def jsParseIntTail : List Char → Option Int
  | '-' :: rest =>
    if hasLeadingDigit rest then some (-(parseDigits rest 0 : Int)) else none
  | '+' :: rest =>
    if hasLeadingDigit rest then some ((parseDigits rest 0 : Int)) else none
  | rest =>
    if hasLeadingDigit rest then some ((parseDigits rest 0 : Int)) else none

/-- JS `parseInt(s)` (radix 10): skip leading whitespace, then parse an
optionally signed run of digits; `none` is JS `NaN`. -/
def jsParseInt (s : List Char) : Option Int := jsParseIntTail (s.dropWhile isWS)

/-- JS `s.trim() === ''`: true exactly when every character is
whitespace. -/
def jsTrimmedEmpty (s : List Char) : Bool := s.all isWS

/-- `LogicCircuit.handleInputChange`
(`widgets/webwriter-logic-circuit.ts`, lines 967–975), the handler for
the per-kind gate-limit (and delay) number inputs:
`const inputValue = parseInt(event.target.value); if (isNaN(inputValue)
|| inputValue < 0 || event.target.value.trim() === '') { this[prop] =
-1 } else { this[prop] = inputValue }`.  Returns the value assigned to
the property. -/
def handleInputChange (s : List Char) : Int :=
  match jsParseInt s with
  | none => -1
  | some v => if v < 0 then -1 else if jsTrimmedEmpty s then -1 else v

/-- The behaviour claimed for `handleInputChange`: the parsed integer
when the entered value parses to a number ≥ 0, and `-1` (unlimited)
whenever the value does not parse to a number, is negative, or is an
empty/whitespace string. -/
def handleInputChangeSpec (s : List Char) : Int :=
  match jsParseInt s with
  | none => -1
  | some v => if 0 ≤ v then v else -1

/-! ### Connection creation (`ConnectorElement.handleMouseDown`) -/

/-- Connector direction (`type` field of `ConnectorElement`:
`'input' | 'output'`). -/
inductive ConnectorDir
  | input | output
deriving DecidableEq, Repr

/-- A connector as seen by the click handler: its identity, its
direction (`connector.type`) and the identity of the gate it sits on
(`connector.parentNode.parentNode` in the source, the owning gate
element). -/
structure Connector where
  id : Nat
  type : ConnectorDir
  gate : Nat
deriving DecidableEq, Repr

/-- A connection line (`lineElements` entry): `start` and `end`
connector. -/
structure Line where
  start : Connector
  endc : Connector
deriving DecidableEq, Repr

/-- Whether the clicked connector is an endpoint of the given line
(`clickedElement === line.start || clickedElement === line.end`). -/
def connectorOnLine (c : Connector) (l : Line) : Bool :=
  c = l.start || c = l.endc

/-- Whether a connector is already an endpoint of any existing line:
the guard loop at the top of `ConnectorElement.handleMouseDown`
(`widgets/src/connector.ts`, lines 94–132) aborts the whole gesture
(`"Only one connection allowed"`) when the clicked connector is the
start or the end of any line — this runs on the first click and on the
second click alike. -/
def connectorBusy (c : Connector) (lines : List Line) : Bool :=
  lines.any (connectorOnLine c)

/-- The two-click connection gesture of
`ConnectorElement.handleMouseDown`: the first click (on `startC`)
aborts if `startC` is on any line; the second click (on `endC`) aborts
if `endC` is on any line; otherwise `createLine` is called exactly when
the two connectors have different `type`s and sit on different gates.
`createLine` itself (`widgets/src/helper/line-helper.ts`, not under
src/) is modelled from the spec (§4.2: on success creates the
Connection); the success condition is entirely in
`handleMouseDown`. -/
def tryConnect (lines : List Line) (startC endC : Connector) : Option Line :=
  if connectorBusy startC lines then none
  else if connectorBusy endC lines then none
  else if startC.type ≠ endC.type ∧ startC.gate ≠ endC.gate then
    some { start := startC, endc := endC }
  else none

/-- An output connector of gate 0 that already drives one connection. -/
def conOutA : Connector := { id := 0, type := .output, gate := 0 }

/-- The input connector of gate 1 fed by `conOutA`. -/
def conInB : Connector := { id := 1, type := .input, gate := 1 }

/-- A free input connector of gate 2. -/
def conInC : Connector := { id := 2, type := .input, gate := 2 }

/-- A circuit with a single existing connection `conOutA → conInB`. -/
def demoLines : List Line := [{ start := conOutA, endc := conInB }]

/-! ### The `updated` lifecycle step of a gate (`Gate.updated`) -/

/-- One `updated` lifecycle call of the `Gate` base class
(`src/unnamed/part_003`, lines 447–478), the engine's propagation step:
if the gate is movable, (1) an INPUT gate whose `input1` changed is
re-evaluated and a `setTimeout(transferOutputToNextGate, D)` delivery
is scheduled; (2) when the widget is simulating, an OUTPUT gate whose
`input1` changed is re-evaluated with no delivery, and any other gate
one of whose inputs changed is re-evaluated and a delivery is scheduled
— unconditionally, with no comparison of the freshly computed outputs
against their previous values.  Returns the new gate state and the
number of deliveries scheduled during the call. -/
def gateUpdated (movable simulate : Bool) (changed1 changed2 : Bool)
    (g : GateState) : GateState × Nat :=
  if movable = true then
    let p1 : GateState × Nat :=
      if g.gatetype = .INPUT ∧ changed1 = true then (calculateOutput g, 1)
      else (g, 0)
    if simulate = true then
      if p1.1.gatetype = .OUTPUT ∧ changed1 = true then (calculateOutput p1.1, p1.2)
      else if changed1 = true ∨ changed2 = true then (calculateOutput p1.1, p1.2 + 1)
      else p1
    else p1
  else (g, 0)

/-- An AND gate that just received `input2 = true` while `input1` is
`false`: its output was `false` and re-evaluation keeps it `false`. -/
def demoAndGate : GateState :=
  { gatetype := .AND, input1 := some false, input2 := some true,
    output := some false, output2 := some false }

/-! ### Circuit-level state: gates, connections, timer queue -/

/-- A connector position on a gate, matching the four connector fields
of the `Gate` base class: `conIn1`, `conIn2`, `conOut`, `conOut2`. -/
inductive Port
  | in1 | in2 | out | out2
deriving DecidableEq, Repr

/-- A reference to one connector of one gate. -/
structure ConnRef where
  gate : Nat
  port : Port
deriving DecidableEq, Repr

/-- A connection (`lineElements` entry) at circuit level: source and
target connector references. -/
structure CLine where
  start : ConnRef
  endc : ConnRef
deriving DecidableEq, Repr

/-- The output value a gate presents on a given connector (`none` for
input ports, which present no output). -/
def outputAt (g : GateState) (p : Port) : JSVal :=
  match p with
  | .out => g.output
  | .out2 => g.output2
  | _ => none

/-- Write a value into the input field behind a given connector
(no-op on output ports). -/
def setInput (p : Port) (v : JSVal) (g : GateState) : GateState :=
  match p with
  | .in1 => { g with input1 := v }
  | .in2 => { g with input2 := v }
  | _ => g

/-- Whether a port is an output connector (`conOut`/`conOut2`). -/
def isOutPort (p : Port) : Bool :=
  match p with
  | .out => true
  | .out2 => true
  | _ => false

/-- Circuit-level engine state: the gate elements (id, signal state),
the connection lines, and the ids of gates with an outstanding
`setTimeout(() => transferOutputToNextGate(widget, gate), D)` timer
(the scheduled deliveries). -/
structure CircuitState where
  gates : List (Nat × GateState)
  lines : List CLine
  pending : List Nat
deriving DecidableEq, Repr

/-- Update the state of the gate with a given id. -/
def updGate (i : Nat) (f : GateState → GateState) :
    List (Nat × GateState) → List (Nat × GateState) :=
  List.map (fun p => (p.1, if p.1 = i then f p.2 else p.2))

/-- Find the gate with a given id (`gateElements.find((gate) => gate.id
=== id)`). -/
def getGate : List (Nat × GateState) → Nat → Option GateState
  | [], _ => none
  | (k, g) :: tl, i => if k = i then some g else getGate tl i

/-- Modelled from the spec: `transferOutputToNextGate`
(`widgets/src/helper/gate-helper.ts`) is not under src/.  Spec §4.3
Delivery: "set the target connector's value equal to the source
connector's value; mark the target gate dirty".  Model: for every
connection sourced at one of the gate's output connectors, write the
source gate's current corresponding output value to the input field
behind the target connector.  Note the value is read from the gate at
call time: the `setTimeout` closures in the source
(`src/unnamed/part_003` line 465, `webwriter-logic-circuit.ts` line
994) capture only the gate reference, never a value. -/
def transferOutputToNextGate (s : CircuitState) (i : Nat) : CircuitState :=
  match getGate s.gates i with
  | none => s
  | some src =>
    { s with
      gates :=
        s.lines.foldl
          (fun gs l =>
            if l.start.gate = i ∧ isOutPort l.start.port = true then
              updGate l.endc.gate (setInput l.endc.port (outputAt src l.start.port)) gs
            else gs)
          s.gates }

/-- A scheduled delivery fires: the timer for gate `i` is consumed and
`transferOutputToNextGate(widget, gate)` runs, reading the gate's
output fields *at fire time* (the closure captured only the gate
reference). -/
def fireDelivery (s : CircuitState) (i : Nat) : CircuitState :=
  transferOutputToNextGate { s with pending := s.pending.erase i } i

/-- Whether a line has one of a gate's four connectors as an endpoint —
the `pathsToDelete` filter of `Gate.deleteGate` (`line.start ===
this.conIn1 || ... || line.end === this.conOut2`). -/
def lineTouches (i : Nat) (l : CLine) : Bool :=
  l.start.gate == i || l.endc.gate == i

/-- `this.output = false; this.output2 = false` — the first step of
`Gate.deleteGate`. -/
def zeroOutputs (g : GateState) : GateState :=
  { g with output := some false, output2 := some false }

/-- `Gate.deleteGate` (`src/unnamed/part_003`, lines 593–660), in
source order: (1) set the gate's own `output` and `output2` to `false`
and call `transferOutputToNextGate` while the connections still exist,
pushing `false` into every downstream input the gate was driving;
(2) remove the gate from `gateElements`; (3) remove every line whose
`start` or `end` is one of the gate's connectors (`conIn1`, `conIn2`,
`conOut`, `conOut2`).  No pending `setTimeout` delivery is cancelled
anywhere in the method (there is no `clearTimeout` in the source). -/
def deleteGate (s : CircuitState) (i : Nat) : CircuitState :=
  let s1 : CircuitState := { s with gates := updGate i zeroOutputs s.gates }
  let s2 := transferOutputToNextGate s1 i
  { s2 with
    gates := s2.gates.filter (fun p => !(p.1 == i)),
    lines := s2.lines.filter (fun l => !(lineTouches i l)) }

/-! ### The simulation controller (`LogicCircuit`) -/

/-- The controller state of the `LogicCircuit` widget element: the
circuit, the `simulate` flag (running), the `allowSimulation` attribute
(0/1 capability switch), the simulate-checkbox state, and the
configured delay. -/
structure WidgetState where
  circuit : CircuitState
  simulate : Bool
  allowSimulation : Nat
  simCheckboxChecked : Bool
  simulationDelay : Nat
deriving DecidableEq, Repr

/-- Modelled from the spec: `resetGates` / `resetLines`
(`widgets/src/helper/gate-helper.ts`, `line-helper.ts`), the body of
`LogicCircuit.resetCircuit`, are not under src/.  Spec §4.3 Reset:
"sets every connector's value to `unset`, clears visual/highlight
state, cancels any pending scheduled deliveries".  The externally
toggled value of an INPUT gate (`input1`, set by the user's clicks) is
user state rather than a propagated connector value and is preserved:
seeding immediately after reset recomputes every INPUT output from it
(§4.3 Seeding). -/
def resetCircuit (s : CircuitState) : CircuitState :=
  { s with
    gates := s.gates.map (fun p =>
      (p.1,
        { p.2 with
          input1 := if p.2.gatetype = .INPUT then p.2.input1 else none,
          input2 := none, output := none, output2 := none })),
    pending := [] }

/-- The ids of the INPUT gates, in circuit order
(`this.gateElements?.filter((gate) => gate.gatetype === 'INPUT')`). -/
def inputGateIds (s : CircuitState) : List Nat :=
  (s.gates.filter (fun p => decide (p.2.gatetype = GateType.INPUT))).map Prod.fst

/-- `LogicCircuit.simulateCircuit`
(`widgets/webwriter-logic-circuit.ts`, lines 984–1001): if the simulate
checkbox is checked, set `simulate = true`, call `resetCircuit()`, and
for every INPUT gate call `gate.calculateOutput()` and schedule
`setTimeout(() => transferOutputToNextGate(this, gate),
this.simulationDelay)`; otherwise set `simulate = false` and call
`resetCircuit()`.  The method never consults `allowSimulation`. -/
def simulateCircuit (w : WidgetState) : WidgetState :=
  if w.simCheckboxChecked = true then
    let c1 := resetCircuit w.circuit
    let c2 : CircuitState :=
      { c1 with
        gates := c1.gates.map (fun p =>
          if p.2.gatetype = GateType.INPUT then (p.1, calculateOutput p.2) else p),
        pending := c1.pending ++ inputGateIds c1 }
    { w with simulate := true, circuit := c2 }
  else
    { w with simulate := false, circuit := resetCircuit w.circuit }

/-! ### The palette and the per-kind gate limits -/

/-- The per-kind allowance attributes of the widget
(`-1` unlimited, `0` forbidden, `n > 0` ceiling). -/
structure Allowances where
  notGateAllowed : Int
  andGateAllowed : Int
  orGateAllowed : Int
  nandGateAllowed : Int
  norGateAllowed : Int
  xnorGateAllowed : Int
  xorGateAllowed : Int
  splitterAllowed : Int
deriving DecidableEq, Repr

/-- Allowances with every kind unlimited (the widget's defaults). -/
def defaultAllowances : Allowances :=
  { notGateAllowed := -1, andGateAllowed := -1, orGateAllowed := -1,
    nandGateAllowed := -1, norGateAllowed := -1, xnorGateAllowed := -1,
    xorGateAllowed := -1, splitterAllowed := -1 }

/-- The sidebar (palette) of `LogicCircuit.render`
(`widgets/webwriter-logic-circuit.ts`, lines 456–495): the
NOT/AND/OR/NAND/NOR/XNOR/XOR sidebar items carry
`style=${this.xGateAllowed === 0 ? 'display: none;' : ''}`, while the
`<splitter-gate>`, `<input-gate>` and `<output-gate>` items are
rendered with no such binding.  Returns `true` when the palette item
for the kind is hidden (`display: none`). -/
def sidebarHidden (a : Allowances) (k : GateType) : Bool :=
  match k with
  | .NOT => decide (a.notGateAllowed = 0)
  | .AND => decide (a.andGateAllowed = 0)
  | .OR => decide (a.orGateAllowed = 0)
  | .NAND => decide (a.nandGateAllowed = 0)
  | .NOR => decide (a.norGateAllowed = 0)
  | .XNOR => decide (a.xnorGateAllowed = 0)
  | .XOR => decide (a.xorGateAllowed = 0)
  | .SPLITTER => false
  | .INPUT => false
  | .OUTPUT => false

/-- The allowance consulted for a kind (INPUT and OUTPUT have no
allowance attribute; they behave as unlimited). -/
def allowanceFor (a : Allowances) (k : GateType) : Int :=
  match k with
  | .NOT => a.notGateAllowed
  | .AND => a.andGateAllowed
  | .OR => a.orGateAllowed
  | .NAND => a.nandGateAllowed
  | .NOR => a.norGateAllowed
  | .XNOR => a.xnorGateAllowed
  | .XOR => a.xorGateAllowed
  | .SPLITTER => a.splitterAllowed
  | .INPUT => -1
  | .OUTPUT => -1

/-- The number of placed gates of a kind. -/
def countKind (gs : List (Nat × GateState)) (k : GateType) : Nat :=
  gs.countP (fun p => decide (p.2.gatetype = k))

/-- Modelled from the spec: `addGate` lives in
`widgets/src/helper/gate-helper.ts`, which is not under src/.  Spec
§4.4: "`addGate(kind)` must check current count of that kind against
its allowance and refuse (no-op, report) if the ceiling is already met"
(allowance `-1` unlimited, `0` forbidden, `n > 0` ceiling); the refusal
is the `LimitExceededError` of §7, returned here as `none` with the
circuit unchanged. -/
def addGate (a : Allowances) (s : CircuitState) (k : GateType) (newId : Nat) :
    Option CircuitState :=
  let allow := allowanceFor a k
  if 0 ≤ allow ∧ allow ≤ (countKind s.gates k : Int) then none
  else some { s with gates := s.gates ++ [(newId, freshGate k)] }

/-! ### Concrete states used by the counterexamples and witnesses -/

/-- An INPUT gate the user has toggled on: `input1 = true` and (after
its `updated` pass) `output = true`. -/
def c4Gate1 : GateState :=
  { gatetype := .INPUT, input1 := some true, input2 := none,
    output := some true, output2 := some false }

/-- A display OUTPUT gate with nothing delivered yet. -/
def c4Gate2 : GateState := freshGate .OUTPUT

/-- The connection from gate 1's output connector to gate 2's first
input connector. -/
def c4Line : CLine := { start := { gate := 1, port := .out }, endc := { gate := 2, port := .in1 } }

/-- The circuit at the moment a delivery from gate 1 is scheduled:
gate 1's output is `true` and the timer is pending. -/
def c4Sched : CircuitState :=
  { gates := [(1, c4Gate1), (2, c4Gate2)], lines := [c4Line], pending := [1] }

/-- The same circuit at fire time, after the user toggled gate 1 again
mid-delay (`changeInput1` then `calculateOutput`, per the INPUT branch
of `Gate.updated`): gate 1's output is now `false` while the old timer
is still pending. -/
def c4AtFire : CircuitState :=
  { c4Sched with
    gates := updGate 1 (fun g => calculateOutput (changeInput1 g)) c4Sched.gates }

/-- A toggled-on INPUT gate driving an AND gate, with a delivery from
the INPUT gate still pending in the timer queue. -/
def c5State : CircuitState :=
  { gates := [(1, c4Gate1), (2, freshGate .AND)], lines := [c4Line], pending := [1] }

/-- The INPUT gate of the C6 scenario, toggled on by the user. -/
def c6Gate : GateState :=
  { gatetype := .INPUT, input1 := some true, input2 := none,
    output := some false, output2 := some false }

/-- A widget whose author has **disabled** simulation
(`allowSimulation = 0`) while the simulate checkbox element is still
checked (disabling hides the checkbox but does not uncheck it:
`handleAllowSimulation` sets `checked = false` only when re-enabling). -/
def c6Widget : WidgetState :=
  { circuit := { gates := [(1, c6Gate)], lines := [], pending := [] },
    simulate := false, allowSimulation := 0, simCheckboxChecked := true,
    simulationDelay := 500 }

/-- Allowances for the C8 scenario: one AND gate allowed, splitters
forbidden. -/
def c8Allow : Allowances :=
  { defaultAllowances with andGateAllowed := 1, splitterAllowed := 0 }

/-- A circuit already holding one AND gate. -/
def c8State : CircuitState :=
  { gates := [(1, freshGate .AND)], lines := [], pending := [] }

/-! ### Helper lemmas -/

/-- A string that is all whitespace parses to `NaN`: after dropping the
leading whitespace nothing is left, and `parseInt` needs a sign or a
digit. -/
theorem jsParseInt_of_all_ws {s : List Char} (h : jsTrimmedEmpty s = true) :
    jsParseInt s = none := by
  have hd : s.dropWhile isWS = [] := by
    rw [List.dropWhile_eq_nil_iff]
    intro x hx
    exact List.all_eq_true.mp h x hx
  rw [jsParseInt, hd]
  rfl

/-- Looking up a gate after `updGate`: the updated entry at the key,
everything else untouched. -/
theorem getGate_updGate (i j : Nat) (f : GateState → GateState)
    (gs : List (Nat × GateState)) :
    getGate (updGate i f gs) j =
      if j = i then (getGate gs j).map f else getGate gs j := by
  induction gs with
  | nil => simp [updGate, getGate]
  | cons hd tl ih =>
    obtain ⟨k, g⟩ := hd
    have hcons : updGate i f ((k, g) :: tl) =
        (k, if k = i then f g else g) :: updGate i f tl := rfl
    rw [hcons]
    by_cases h2 : k = j
    · subst h2
      by_cases h1 : k = i
      · subst h1
        simp [getGate]
      · simp [getGate, h1]
    · show (if k = j then some (if k = i then f g else g)
          else getGate (updGate i f tl) j) = _
      rw [if_neg h2, ih]
      by_cases hji : j = i
      · rw [if_pos hji, if_pos hji,
          show getGate ((k, g) :: tl) j = getGate tl j from by simp [getGate, h2]]
      · rw [if_neg hji, if_neg hji]
        simp [getGate, h2]

/-- After filtering out the entries with key `i`, looking up `i` finds
nothing. -/
theorem getGate_filter_self (i : Nat) (gs : List (Nat × GateState)) :
    getGate (gs.filter (fun p => !(p.1 == i))) i = none := by
  induction gs with
  | nil => rfl
  | cons hd tl ih =>
    obtain ⟨k, g⟩ := hd
    by_cases h : k = i
    · have hf : ((k, g) :: tl).filter (fun p => !(p.1 == i)) =
          tl.filter (fun p => !(p.1 == i)) := by
        simp [List.filter_cons, h]
      rw [hf]
      exact ih
    · have hf : ((k, g) :: tl).filter (fun p => !(p.1 == i)) =
          (k, g) :: tl.filter (fun p => !(p.1 == i)) := by
        simp [List.filter_cons, h]
      rw [hf]
      simp [getGate, h, ih]

/-- Filtering out the entries with key `i` does not change the lookup
of any other key. -/
theorem getGate_filter_other (i j : Nat) (h : j ≠ i)
    (gs : List (Nat × GateState)) :
    getGate (gs.filter (fun p => !(p.1 == i))) j = getGate gs j := by
  induction gs with
  | nil => rfl
  | cons hd tl ih =>
    obtain ⟨k, g⟩ := hd
    by_cases h1 : k = i
    · have h2 : ¬k = j := fun hkj => h (hkj ▸ h1)
      have hf : ((k, g) :: tl).filter (fun p => !(p.1 == i)) =
          tl.filter (fun p => !(p.1 == i)) := by
        simp [List.filter_cons, h1]
      rw [hf, ih]
      simp [getGate, h2]
    · have hf : ((k, g) :: tl).filter (fun p => !(p.1 == i)) =
          (k, g) :: tl.filter (fun p => !(p.1 == i)) := by
        simp [List.filter_cons, h1]
      rw [hf]
      by_cases h2 : k = j <;> simp [getGate, h2, ih]

/-- Length of a list after removing the elements satisfying `p`. -/
theorem length_filter_not (p : α → Bool) (l : List α) :
    (l.filter (fun a => !(p a))).length = l.length - l.countP p := by
  induction l with
  | nil => simp
  | cons a t ih =>
    have hle := List.countP_le_length (p := p) (l := t)
    by_cases h : p a <;> simp [List.countP_cons, h, ih] <;> omega

/-- `transferOutputToNextGate` only writes gate signal fields: the
connection list is untouched. -/
theorem transfer_lines (s : CircuitState) (i : Nat) :
    (transferOutputToNextGate s i).lines = s.lines := by
  unfold transferOutputToNextGate
  cases hg : getGate s.gates i <;> simp [hg]

/-- `transferOutputToNextGate` does not touch the timer queue. -/
theorem transfer_pending (s : CircuitState) (i : Nat) :
    (transferOutputToNextGate s i).pending = s.pending := by
  unfold transferOutputToNextGate
  cases hg : getGate s.gates i <;> simp [hg]

/-- `transferOutputToNextGate` on a circuit with a single connection,
sourced at the primary output connector of the transferring gate: the
gate's current `output` is written to the input field behind the
target connector. -/
theorem transfer_single_line (s : CircuitState) (i : Nat) (l : CLine)
    (src : GateState)
    (hl : s.lines = [l]) (hsg : l.start.gate = i) (hsp : l.start.port = Port.out)
    (hsrc : getGate s.gates i = some src) :
    (transferOutputToNextGate s i).gates =
      updGate l.endc.gate (setInput l.endc.port src.output) s.gates := by
  unfold transferOutputToNextGate
  rw [hsrc]
  simp only [hl, List.foldl_cons, List.foldl_nil]
  rw [if_pos ⟨hsg, by rw [hsp]; rfl⟩, hsp]
  rfl

end LogicCircuit

namespace LogicCircuit

/-- Claim C1: for every gate kind and every combination of boolean input
values in {true, false}, `calculateOutput` yields exactly the truth
table of spec §4.1 — AND gives in1 ∧ in2, OR gives in1 ∨ in2, NOT gives
¬in1, NAND gives ¬(in1 ∧ in2), NOR gives ¬(in1 ∨ in2), XOR gives
in1 ⊕ in2, XNOR gives ¬(in1 ⊕ in2), and SPLITTER sets both of its
outputs equal to in1. -/
theorem C1_truth_tables :
    ∀ a b : Bool,
      (calculateOutput (gateWithInputs .AND (some a) (some b))).output = some (a && b) ∧
      (calculateOutput (gateWithInputs .OR (some a) (some b))).output = some (a || b) ∧
      (calculateOutput (gateWithInputs .NOT (some a) (some b))).output = some (!a) ∧
      (calculateOutput (gateWithInputs .NAND (some a) (some b))).output = some (!(a && b)) ∧
      (calculateOutput (gateWithInputs .NOR (some a) (some b))).output = some (!(a || b)) ∧
      (calculateOutput (gateWithInputs .XOR (some a) (some b))).output = some (xor a b) ∧
      (calculateOutput (gateWithInputs .XNOR (some a) (some b))).output = some (!(xor a b)) ∧
      (calculateOutput (gateWithInputs .SPLITTER (some a) (some b))).output = some a ∧
      (calculateOutput (gateWithInputs .SPLITTER (some a) (some b))).output2 = some a := by
  decide

/-- Claim C7: for every gate kind, evaluation is a total function over
the value domain {true, false, unset} (`calculateOutput` is a total Lean
function on `GateState`), and an unset input evaluates exactly as the
boolean `false` would: for all tri-state inputs, the truthiness
projection of the computed output (the boolean signal the widget
propagates and displays — connector values are set by comparing the
output with `true`) equals the §4.1 truth table applied to the
truthiness projections of the inputs, under which `unset` is `false`.
In particular NOT of an unset input is literally `true`, and AND with
one or both inputs unset is falsy. -/
theorem C7_unset_as_false :
    (∀ (k : GateType) (a b : JSVal),
      truthy (calculateOutput (gateWithInputs k a b)).output =
        specTruthTable k (truthy a) (truthy b) ∧
      truthy (calculateOutput (gateWithInputs k a b)).output2 =
        truthy (if k = .SPLITTER then a else some false)) ∧
    (calculateOutput (gateWithInputs .NOT none none)).output = some true ∧
    truthy (calculateOutput (gateWithInputs .AND none (some true))).output = false ∧
    truthy (calculateOutput (gateWithInputs .AND (some true) none)).output = false ∧
    truthy (calculateOutput (gateWithInputs .AND none none)).output = false := by
  refine ⟨?_, by decide, by decide, by decide, by decide⟩
  decide

/-- Claim C10: `changeInput1` sets `input1` to the logical negation of
its current value (`this.input1 = !this.input1`), where an unset (null)
`input1` negates to `true`; consequently the first toggle of a freshly
placed INPUT gate (whose `input1` starts unset) sets `input1` to `true`,
and the INPUT gate's output, computed by `calculateOutput` as equal to
`input1`, becomes `true`. -/
theorem C10_first_toggle :
    (∀ g : GateState, (changeInput1 g).input1 = some (!truthy g.input1)) ∧
    (changeInput1 freshInputGate).input1 = some true ∧
    (calculateOutput (changeInput1 freshInputGate)).output = some true := by
  exact ⟨fun g => rfl, by decide, by decide⟩

/-- Claim C9: `handleInputChange` sets the allowance property to the
parsed integer when the entered value parses to a number ≥ 0, and to
`-1` (unlimited) whenever the entered value does not parse to a number,
is negative, or is an empty/whitespace string — invalid or cleared
limit input means unlimited, never forbidden.  (The trim clause of the
source condition is redundant: a successfully parsed string cannot be
all whitespace.) -/
theorem C9_limit_input :
    ∀ s : List Char, handleInputChange s = handleInputChangeSpec s := by
  intro s
  unfold handleInputChange handleInputChangeSpec
  cases h : jsParseInt s with
  | none => rfl
  | some v =>
    have hw : jsTrimmedEmpty s = false := by
      cases hts : jsTrimmedEmpty s
      · rfl
      · rw [jsParseInt_of_all_ws hts] at h
        cases h
    rw [hw]
    by_cases hv : v < 0
    · simp [hv, not_le.mpr hv]
    · simp [hv, not_lt.mp hv]

/-- Claim C2 counterexample: the claim predicts that an output connector
which already drives one connection may be chosen as the source of a
further connection.  In the circuit `demoLines` (one existing line from
`conOutA` to `conInB`), clicking `conOutA` and then the free input
`conInC` satisfies all three of the claim's conditions (different
directions, different gates, target unoccupied), yet
`handleMouseDown`'s guard loop aborts the gesture on the very first
click because `conOutA` is the start of an existing line ("Only one
connection allowed"): no connection is created. -/
theorem C2_counterexample :
    (conOutA.type ≠ conInC.type ∧ conOutA.gate ≠ conInC.gate ∧
      connectorBusy conInC demoLines = false) ∧
    tryConnect demoLines conOutA conInC = none := by
  decide

/-- Claim C2 (amended): connection creation succeeds if and only if the
two clicked connectors have different directions, belong to different
gates, and **neither** connector is an endpoint of any existing
connection — every connector, output connectors included, participates
in at most one connection (fan-out requires a SPLITTER gate). -/
theorem C2_success_iff (lines : List Line) (s e : Connector) :
    (tryConnect lines s e).isSome ↔
      (s.type ≠ e.type ∧ s.gate ≠ e.gate ∧
       connectorBusy s lines = false ∧ connectorBusy e lines = false) := by
  unfold tryConnect
  cases h1 : connectorBusy s lines
  · cases h2 : connectorBusy e lines
    · by_cases h3 : s.type ≠ e.type ∧ s.gate ≠ e.gate
      · simp [h3]
      · simp only [Bool.false_eq_true, if_false, if_neg h3]
        simp only [Option.isSome_none, Bool.false_eq_true, false_iff]
        intro hc
        exact h3 ⟨hc.1, hc.2.1⟩
    · simp
  · simp

/-- Claim C3 counterexample: a movable AND gate in a simulating widget
with `input1 = false`, previous `output = false`, receives a change of
`input2` (to `true`).  Re-evaluation leaves the output unchanged
(`false && true` is `false`), yet `Gate.updated` still schedules one
`setTimeout(transferOutputToNextGate, D)` delivery — refuting "if
re-evaluation leaves every output value unchanged, no new delivery is
scheduled from that gate". -/
theorem C3_counterexample :
    (gateUpdated true true false true demoAndGate).1.output = demoAndGate.output ∧
    (gateUpdated true true false true demoAndGate).2 = 1 := by
  decide

/-- Claim C3 (amended): when a movable non-INPUT non-OUTPUT gate becomes
dirty in a simulating widget (at least one input changed), `updated`
re-evaluates it and schedules exactly one delivery after delay `D` to
the connections sourced at its outputs — unconditionally, whether or not
any of its own output connector values changed.  (Redundant waves die
out only at the receiving gate: an `updated` pass fires there only when
a delivered value actually differs from the stored one.) -/
theorem C3_schedules_regardless (g : GateState) (c1 c2 : Bool)
    (hin : g.gatetype ≠ .INPUT) (hout : g.gatetype ≠ .OUTPUT) :
    gateUpdated true true c1 c2 g =
      if c1 = true ∨ c2 = true then (calculateOutput g, 1) else (g, 0) := by
  simp [gateUpdated, hin, hout]

/-- Concrete instance of `C3_schedules_regardless`: the AND gate of the
counterexample state, with only `input2` changed. -/
theorem C3_schedules_regardless_witness :
    gateUpdated true true false true demoAndGate =
      if false = true ∨ true = true then (calculateOutput demoAndGate, 1)
      else (demoAndGate, 0) :=
  C3_schedules_regardless demoAndGate false true (by decide) (by decide)

/-- Claim C4 counterexample: in `c4Sched` a delivery from gate 1 was
scheduled while gate 1's output was `true` (the claimed snapshot
value).  Mid-delay the user toggles gate 1 again, so at fire time
(`c4AtFire`) its output is `false`.  The fired delivery writes `false`
— the source value at fire time — into gate 2's input, not the
schedule-time snapshot `true`: the `setTimeout` closure captures only
the gate reference, never a value. -/
theorem C4_counterexample :
    (getGate c4Sched.gates 1).map GateState.output = some (some true) ∧
    (getGate (fireDelivery c4AtFire 1).gates 2).map GateState.input1 =
      some (some false) := by
  decide

/-- Claim C4 (amended): the value written to the target connector when a
delivery fires after delay `D` is the source connector's value **as of
fire time**: if the source changed between scheduling and firing, the
newer value is delivered.  (No snapshot is taken at schedule time.) -/
theorem C4_fire_time_value (s : CircuitState) (i : Nat) (l : CLine)
    (src tgt : GateState)
    (hl : s.lines = [l]) (hsg : l.start.gate = i) (hsp : l.start.port = .out)
    (hsrc : getGate s.gates i = some src)
    (htgt : getGate s.gates l.endc.gate = some tgt) :
    getGate (fireDelivery s i).gates l.endc.gate =
      some (setInput l.endc.port src.output tgt) := by
  have h1 : (fireDelivery s i).gates =
      updGate l.endc.gate (setInput l.endc.port src.output) s.gates :=
    transfer_single_line { s with pending := s.pending.erase i } i l src hl hsg hsp hsrc
  rw [h1, getGate_updGate, if_pos rfl, htgt]
  rfl

/-- Concrete instance of `C4_fire_time_value` on the counterexample
circuit: the delivered value is the output of gate 1 as recomputed by
the mid-delay toggle. -/
theorem C4_fire_time_value_witness :
    getGate (fireDelivery c4AtFire 1).gates c4Line.endc.gate =
      some (setInput c4Line.endc.port
        (calculateOutput (changeInput1 c4Gate1)).output c4Gate2) :=
  C4_fire_time_value c4AtFire 1 c4Line (calculateOutput (changeInput1 c4Gate1))
    c4Gate2 rfl rfl rfl (by decide) (by decide)

/-- Claim C5 counterexample: in `c5State` gate 1 has one pending
scheduled delivery.  The claim says `deleteGate` "cancels the gate's
pending scheduled deliveries"; but `Gate.deleteGate` contains no
`clearTimeout` — after deleting gate 1 its timer is still
outstanding. -/
theorem C5_counterexample :
    c5State.pending = [1] ∧ (deleteGate c5State 1).pending = [1] := by
  decide

/-- Claim C5 (amended): `deleteGate` removes the gate and exactly its N
attached connections (the connection count decreases by exactly N and no
remaining connection references any of the deleted gate's connectors),
and — having first set the gate's outputs to `false` and pushed them
through the still-existing connections — leaves every downstream input
that was fed by the deleted gate holding `false`; but it does **not**
cancel the gate's pending scheduled deliveries: the timer queue is left
untouched (such a delivery later fires as a no-op, its connections being
gone). -/
theorem C5_cascade (s : CircuitState) (i : Nat) :
    ((deleteGate s i).lines.length =
        s.lines.length - s.lines.countP (lineTouches i)) ∧
    (∀ l ∈ (deleteGate s i).lines, lineTouches i l = false) ∧
    (getGate (deleteGate s i).gates i = none) ∧
    ((deleteGate s i).pending = s.pending) ∧
    (∀ l src tgt, s.lines = [l] → l.start.gate = i → l.start.port = Port.out →
      l.endc.gate ≠ i → getGate s.gates i = some src →
      getGate s.gates l.endc.gate = some tgt →
      getGate (deleteGate s i).gates l.endc.gate =
        some (setInput l.endc.port (some false) tgt)) := by
  have hlines : (deleteGate s i).lines =
      s.lines.filter (fun l => !(lineTouches i l)) := by
    show ((transferOutputToNextGate _ i).lines).filter _ = _
    rw [transfer_lines]
  have hgates : (deleteGate s i).gates =
      ((transferOutputToNextGate
        { s with gates := updGate i zeroOutputs s.gates } i).gates).filter
        (fun p => !(p.1 == i)) := rfl
  refine ⟨?_, ?_, ?_, ?_, ?_⟩
  · rw [hlines, length_filter_not]
  · intro l hmem
    rw [hlines] at hmem
    simpa using List.of_mem_filter hmem
  · rw [hgates]
    exact getGate_filter_self i _
  · show ((transferOutputToNextGate _ i).pending) = s.pending
    rw [transfer_pending]
  · intro l src tgt hl hsg hsp hne hsrc htgt
    have hsrc1 : getGate (updGate i zeroOutputs s.gates) i =
        some (zeroOutputs src) := by
      rw [getGate_updGate, if_pos rfl, hsrc]
      rfl
    have h2 := transfer_single_line
      { s with gates := updGate i zeroOutputs s.gates } i l (zeroOutputs src)
      hl hsg hsp hsrc1
    rw [hgates, getGate_filter_other _ _ hne, h2, getGate_updGate, if_pos rfl,
      getGate_updGate, if_neg hne, htgt]
    rfl

/-- Concrete instance of `C5_cascade` on the counterexample circuit:
the single connection is removed, the timer queue survives, and the AND
gate downstream of the deleted INPUT gate is left with `input1 =
false`. -/
theorem C5_cascade_witness :
    (deleteGate c5State 1).lines.length =
        c5State.lines.length - c5State.lines.countP (lineTouches 1) ∧
    (deleteGate c5State 1).pending = c5State.pending ∧
    getGate (deleteGate c5State 1).gates c4Line.endc.gate =
      some (setInput c4Line.endc.port (some false) (freshGate .AND)) := by
  refine ⟨(C5_cascade c5State 1).1, (C5_cascade c5State 1).2.2.2.1, ?_⟩
  exact (C5_cascade c5State 1).2.2.2.2 c4Line c4Gate1 (freshGate .AND)
    rfl rfl rfl (by decide) (by decide) (by decide)

/-- Claim C6 counterexample: `c6Widget` has `allowSimulation = 0`
(simulation disabled by the author) while its simulate checkbox element
is still checked — the state the widget is actually left in after
disabling, since `handleAllowSimulation` hides the checkbox without
unchecking it.  `simulateCircuit` never consults `allowSimulation`:
called in this state it starts the run anyway (sets `simulate = true`,
seeds the INPUT gate and schedules its delivery) — refuting "starting
the simulation is only legal when simulationEnabled is true". -/
theorem C6_counterexample :
    c6Widget.allowSimulation = 0 ∧
    (simulateCircuit c6Widget).simulate = true ∧
    (simulateCircuit c6Widget).circuit.pending = [1] ∧
    (getGate (simulateCircuit c6Widget).circuit.gates 1).map GateState.output =
      some (some true) := by
  decide

/-- Claim C6 (amended): starting the simulation is guarded by the
simulate-checkbox state alone (`allowSimulation` merely hides the
checkbox); when the checkbox is checked, `simulateCircuit` sets
`simulate = true`, first performs `resetCircuit()` and then seeds: every
INPUT gate's output is computed as the identity of its externally
toggled value (`input1`, which reset preserves) and one delivery per
INPUT gate is scheduled, after the configured delay, to the connections
sourced at that gate's output connector. -/
theorem C6_checkbox_guarded_seeding (w : WidgetState)
    (h : w.simCheckboxChecked = true) :
    (simulateCircuit w).simulate = true ∧
    (simulateCircuit w).circuit.pending = inputGateIds (resetCircuit w.circuit) ∧
    (∀ p ∈ w.circuit.gates, p.2.gatetype = GateType.INPUT →
      (p.1, ({ gatetype := GateType.INPUT, input1 := p.2.input1, input2 := none,
               output := p.2.input1, output2 := none } : GateState))
        ∈ (simulateCircuit w).circuit.gates) := by
  refine ⟨by simp [simulateCircuit, h], ?_, ?_⟩
  · simp [simulateCircuit, h, resetCircuit]
  · intro p hp hk
    have h1 : (p.1,
        ({ gatetype := p.2.gatetype,
           input1 := if p.2.gatetype = GateType.INPUT then p.2.input1 else none,
           input2 := none, output := none, output2 := none } : GateState))
        ∈ (resetCircuit w.circuit).gates :=
      List.mem_map_of_mem _ hp
    have h2 := List.mem_map_of_mem
      (fun p : Nat × GateState =>
        if p.2.gatetype = GateType.INPUT then (p.1, calculateOutput p.2) else p) h1
    simp only [simulateCircuit, h, if_pos]
    simpa [hk, calculateOutput] using h2

/-- Concrete instance of `C6_checkbox_guarded_seeding` on the
counterexample widget: the toggled INPUT gate is seeded to `output =
true` and its delivery is scheduled. -/
theorem C6_checkbox_guarded_seeding_witness :
    (simulateCircuit c6Widget).simulate = true ∧
    (simulateCircuit c6Widget).circuit.pending =
      inputGateIds (resetCircuit c6Widget.circuit) ∧
    (1, ({ gatetype := GateType.INPUT, input1 := some true, input2 := none,
           output := some true, output2 := none } : GateState))
      ∈ (simulateCircuit c6Widget).circuit.gates := by
  obtain ⟨h1, h2, h3⟩ := C6_checkbox_guarded_seeding c6Widget rfl
  exact ⟨h1, h2, h3 (1, c6Gate) (by decide) rfl⟩

/-- Claim C8 (the claim is right, the code has a bug): in the sidebar of
`LogicCircuit.render`, an allowance of 0 hides the palette item for the
seven logic kinds (shown here for AND), but the `<splitter-gate>` item
carries no such binding: with `splitterAllowed = 0` — documented in the
widget's own property docs and README as "0 = none allowed" — the
splitter remains visible and placeable.  The limit-enforcement half of
the claim is exercised against the spec-modelled `addGate`: with
`andGateAllowed = 1` and one AND gate placed, a further `addGate` is
refused as a no-op and the AND count stays 1. -/
theorem C8_splitter_palette :
    c8Allow.splitterAllowed = 0 ∧
    sidebarHidden c8Allow GateType.SPLITTER = false ∧
    sidebarHidden { c8Allow with andGateAllowed := 0 } GateType.AND = true ∧
    addGate c8Allow c8State GateType.AND 2 = none ∧
    countKind c8State.gates GateType.AND = 1 := by
  decide

end LogicCircuit
